import Mathlib

/-!
Verification of the `python-finder` lead-generation pipeline core.

This file shallowly embeds the pure content of the repository's core
modules and proves / refutes the frozen claims about them:

* `leadgen/utils/domain.py`  — `DomainResolver` (business-domain validation)
* `leadgen/utils/state.py`   — `StateStore` (deduplication store, snapshots)
* `leadgen/orchestrator.py`  — `LeadOrchestrator` (search / domain / email phases)
* `leadgen/utils/proxy.py`   — `ProxyManager` (proxy rotation and health checks)

Python strings are embedded as `String`, Python sets of strings as
`Finset String`, Python dicts keyed by strings as functions `String → α`,
and the network / external collaborators (providers, finders, proxy health
probes) as explicit function parameters.  File I/O is modelled by an
explicit filesystem record threaded through the operations.
-/

namespace LeadGen

/-! ## Python string primitives

These are implemented by structural recursion over the character list of
a `String` (rather than through core's `Substring`-based functions) so
that every concrete evaluation reduces inside the kernel.  `pyLower` is
Python `str.lower` (ASCII case folding suffices for the inputs the
claims quantify over), `pyStrip` is Python `str.strip()` (drop
whitespace at both ends), and `hasSub needle hay` is the Python
substring test `needle in hay`. -/

/-- ASCII lower-casing of one character. -/
def pyLowerChar (c : Char) : Char :=
  if c.isUpper then Char.ofNat (c.toNat + 32) else c

/-- Python `str.lower`. -/
def pyLower (s : String) : String := String.mk (s.data.map pyLowerChar)

/-- Python `str.strip()` with no argument: drop leading and trailing
whitespace. -/
def pyStrip (s : String) : String :=
  String.mk (((s.data.dropWhile Char.isWhitespace).reverse.dropWhile
    Char.isWhitespace).reverse)

/-- List-level check that the first list is an initial segment of the
second. -/
def isInitSeg [DecidableEq α] : List α → List α → Bool
  | [], _ => true
  | _ :: _, [] => false
  | a :: as, b :: bs => a = b && isInitSeg as bs

/-- Python `str.startswith`. -/
def pyStartsWith (s p : String) : Bool := isInitSeg p.data s.data

/-- Python slicing `s[n:]` (by characters). -/
def pyDrop (s : String) (n : Nat) : String := String.mk (s.data.drop n)

/-- Drop the final character (`s[:-1]`). -/
def pyDropLast (s : String) : String := String.mk s.data.dropLast

/-- List-level substring occurrence: `needle` occurs contiguously in `hay`. -/
def listHasSub [DecidableEq α] (needle : List α) : List α → Bool
  | [] => needle.isEmpty
  | b :: bs => isInitSeg needle (b :: bs) || listHasSub needle bs

/-- Python substring containment `needle in hay`. -/
def hasSub (needle hay : String) : Bool := listHasSub needle.data hay.data

/-- Replace every occurrence of a nonempty pattern, left to right
(Python `str.replace`). -/
def replaceList [DecidableEq α] (needle repl : List α) (l : List α) : List α :=
  match l with
  | [] => []
  | a :: rest =>
      if h : needle ≠ [] ∧ isInitSeg needle (a :: rest) = true then
        repl ++ replaceList needle repl ((a :: rest).drop needle.length)
      else a :: replaceList needle repl rest
termination_by l.length
decreasing_by
  · have hn : 0 < needle.length := by
      cases needle with
      | nil => exact absurd rfl h.1
      | cons x xs => simp
    simp only [List.length_drop, List.length_cons]
    omega
  · simp

/-! ## DomainResolver (`leadgen/utils/domain.py`)

The deny lists and validation logic of `DomainResolver`, embedded
verbatim from the source. -/

/-- Embeds `DomainResolver.PROVIDER_DOMAINS`. -/
def PROVIDER_DOMAINS : List String :=
  [ "yelp.com", "www.yelp.com",
    "google.com", "www.google.com", "maps.google.com",
    "facebook.com", "www.facebook.com", "m.facebook.com",
    "instagram.com", "www.instagram.com",
    "twitter.com", "www.twitter.com",
    "x.com",
    "linkedin.com", "www.linkedin.com",
    "foursquare.com", "www.foursquare.com",
    "yellowpages.com", "www.yellowpages.com" ]

/-- Embeds the keyword list `["yelp", "google", "facebook", "instagram"]`
used for the substring deny test in `_is_provider_domain`. -/
def providerKeywords : List String := ["yelp", "google", "facebook", "instagram"]

/-- Embeds the `www.`-stripping step of `_is_provider_domain`:
`if domain.startswith("www."): domain = domain[4:]`. -/
def dropWWW (d : String) : String :=
  if pyStartsWith d "www." then pyDrop d 4 else d

/-- Embeds `DomainResolver._is_provider_domain`. -/
def is_provider_domain (domain : String) : Bool :=
  if domain = "" then true
  else
    let d := dropWWW (pyLower domain)
    PROVIDER_DOMAINS.contains d || providerKeywords.any (fun p => hasSub p d)

/-- Character class `[a-zA-Z0-9]` of the hostname regex. -/
def isLabelChar (c : Char) : Bool := c.isAlpha || c.isDigit

/-- Character class `[a-zA-Z0-9-]` of the hostname regex. -/
def isLabelDashChar (c : Char) : Bool := isLabelChar c || c = '-'

/-- Core matcher for the regex `^[a-zA-Z0-9][a-zA-Z0-9-]*[a-zA-Z0-9]*\.[a-zA-Z]{2,}$`.
Because `[a-zA-Z0-9-]*[a-zA-Z0-9]*` denotes exactly the strings over
`[a-zA-Z0-9-]`, and neither character class contains `'.'`, a string
matches iff it splits as `label ++ "." ++ tld` with `label` a nonempty
dash-free-leading label and `tld` at least two letters; equivalently,
splitting on `'.'` yields exactly two such parts. -/
def matchesHostShape (s : String) : Bool :=
  match s.toList.splitOn '.' with
  | [label, tld] =>
      (match label with
       | [] => false
       | c :: rest => isLabelChar c && rest.all isLabelDashChar)
      && tld.length ≥ 2 && tld.all Char.isAlpha
  | _ => false

/-- Python `re.match(pattern + "$", s)`: `'$'` also matches just before a
single trailing newline. -/
def domainRegexMatch (s : String) : Bool :=
  matchesHostShape s ||
    (s.toList.getLast? = some '\n' && matchesHostShape (pyDropLast s))

/-- Embeds the `excluded_patterns` list of `_is_valid_business_domain`. -/
def excluded_patterns : List String :=
  [ "gmail.com", "yahoo.com", "hotmail.com", "outlook.com",
    "aol.com", "icloud.com", "live.com", "msn.com" ]

/-- Embeds Python's `isinstance(domain, str)` for an argument that is a
`str`: always true.  Kept as a named definition so that the control flow
of `_is_valid_business_domain` is embedded exactly as written. -/
def isinstanceStr (_ : String) : Bool := true

/-- Embeds the body of `DomainResolver._is_valid_business_domain` that
follows the leading `isinstance` guard (the code reachable only for
non-`str` input in the source as written). -/
def is_valid_business_domain_body (domain : String) : Bool :=
  if domain = "" || is_provider_domain domain then false
  else if ! domainRegexMatch domain then false
  else ! excluded_patterns.any (fun p => hasSub p (pyLower domain))

/-- Embeds `DomainResolver._is_valid_business_domain` exactly as written:
its first statement is `if isinstance(domain, str): return False`, so for
every string argument the function returns `False` before reaching the
deny-list and regex checks. -/
def is_valid_business_domain (domain : String) : Bool :=
  if isinstanceStr domain then false
  else is_valid_business_domain_body domain

/-! ## Data model (`leadgen/models/company.py`, `leadgen/models/email_result.py`) -/

/-- Embeds the `Company` dataclass.  Its `__post_init__` tries to derive
`domain` from `url` guarded by `DomainResolver._is_valid_business_domain`;
since that validator returns `False` for every string (see above), the
constructor never sets `domain`, so the embedding takes the fields as
given. -/
structure Company where
  id : String
  name : String
  url : Option String := none
  domain : Option String := none
  address : Option String := none
  phone : Option String := none
deriving DecidableEq, Repr

/-- Embeds the `Contact` dataclass. -/
structure Contact where
  name : String
  company_name : String
  email : String
  position : String
deriving DecidableEq, Repr

/-- Embeds the `EmailResult` dataclass. -/
structure EmailResult where
  domain : String
  emails : List Contact
  finder : String
  success : Bool := true
  error : Option String := none
deriving DecidableEq, Repr

/-! ## StateStore (`leadgen/utils/state.py`)

Python sets of strings are embedded as `Finset String`; the snapshot file
and the output artifacts as an explicit filesystem record.  The
csv / jsonl / txt / xlsx branches of the `_load_*` helpers each reduce to
iterating a stream of parsed records, so the artifacts are modelled as
those parsed streams. -/

/-- Embeds `StateStore._normalize_company_key` applied to a `Company`
object.  The `Company` dataclass has no `city` or `location` attribute,
so the `getattr(company, "city", "")` / `getattr(company, "location", "")`
lookups both yield `""`. -/
def normalize_company_key (c : Company) : String :=
  let name := c.name
  let city := ""
  let address := c.address.getD ""
  let url := c.url.getD ""
  pyStrip (pyLower name) ++ "|" ++ pyStrip (pyLower city) ++ "|" ++
    pyStrip (pyLower address) ++ "|" ++ pyStrip (pyLower url)

/-- Row of a companies output artifact, as the dict passed to
`_normalize_company_key` by `_load_companies_csv` / `_load_companies_jsonl`
/ `_load_companies_xlsx`: the relevant string fields, absent keys as `""`. -/
structure CompanyRow where
  name : String := ""
  city : String := ""
  location : String := ""
  address : String := ""
  url : String := ""
deriving DecidableEq, Repr

/-- Embeds `StateStore._normalize_company_key` applied to a dict row:
`company.get("city", "") or company.get("location", "")` falls back to
`location` when `city` is empty. -/
def normalize_company_key_row (r : CompanyRow) : String :=
  let city := if r.city = "" then r.location else r.city
  pyStrip (pyLower r.name) ++ "|" ++ pyStrip (pyLower city) ++ "|" ++
    pyStrip (pyLower r.address) ++ "|" ++ pyStrip (pyLower r.url)

/-- Embeds the in-memory state of `StateStore`: the three seen-sets,
empty at construction. -/
structure StateStore where
  seen_companies : Finset String := ∅
  seen_domains : Finset String := ∅
  seen_emails : Finset String := ∅
deriving DecidableEq

/-- Embeds `StateStore.is_seen_company`. -/
def is_seen_company (st : StateStore) (c : Company) : Bool :=
  decide (normalize_company_key c ∈ st.seen_companies)

/-- Embeds `StateStore.is_seen_domain`: membership of `domain.strip()`
(no case folding). -/
def is_seen_domain (st : StateStore) (domain : String) : Bool :=
  decide (pyStrip domain ∈ st.seen_domains)

/-- Embeds `StateStore.is_seen_email`: membership of `email.lower().strip()`. -/
def is_seen_email (st : StateStore) (email : String) : Bool :=
  decide (pyStrip (pyLower email) ∈ st.seen_emails)

/-- Embeds `StateStore.add_seen_company`. -/
def add_seen_company (st : StateStore) (c : Company) : StateStore :=
  { st with seen_companies := insert (normalize_company_key c) st.seen_companies }

/-- Embeds `StateStore.add_seen_domain`: inserts `domain.strip()`
(no case folding). -/
def add_seen_domain (st : StateStore) (domain : String) : StateStore :=
  { st with seen_domains := insert (pyStrip domain) st.seen_domains }

/-- Embeds `StateStore.add_seen_email`: inserts `email.lower().strip()`. -/
def add_seen_email (st : StateStore) (email : String) : StateStore :=
  { st with seen_emails := insert (pyStrip (pyLower email)) st.seen_emails }

/-- Content of the snapshot file `state/state.json` written by
`save_state`: the three seen-sets as JSON lists.  Python enumerates a
`set` in unspecified order; the embedding enumerates in sorted order. -/
structure Snapshot where
  companies : List String
  domains : List String
  emails : List String
deriving DecidableEq, Repr

/-- Embeds the snapshot content produced by `StateStore.save_state`:
`{"companies": list(...), "domains": list(...), "emails": list(...)}`. -/
def save_state (st : StateStore) : Snapshot :=
  ⟨st.seen_companies.sort (· ≤ ·),
   st.seen_domains.sort (· ≤ ·),
   st.seen_emails.sort (· ≤ ·)⟩

/-- Filesystem surface touched by `StateStore`: the snapshot file plus
the three output artifacts (companies rows, domain lines, email fields),
modelled as their parsed record streams. -/
structure StateFS where
  state_file : Option Snapshot := none
  companies_out : List CompanyRow := []
  domains_out : List String := []
  emails_out : List String := []
deriving DecidableEq

/-- Embeds the effect of `StateStore.save_state` on the filesystem:
whole-file overwrite of the snapshot. -/
def save_state_fs (st : StateStore) (fs : StateFS) : StateFS :=
  { fs with state_file := some (save_state st) }

/-- Embeds `StateStore._load_from_files`: `_load_companies` adds the
normalized key of every row, `_load_domains` adds every nonempty stripped
line, `_load_emails` adds `email.strip().lower()` for every nonempty
stripped email field.  All three use `set.add`, growing the current sets. -/
def load_from_files (st : StateStore) (fs : StateFS) : StateStore :=
  { seen_companies :=
      fs.companies_out.foldl (fun s r => insert (normalize_company_key_row r) s)
        st.seen_companies,
    seen_domains :=
      fs.domains_out.foldl
        (fun s line => let d := pyStrip line; if d = "" then s else insert d s)
        st.seen_domains,
    seen_emails :=
      fs.emails_out.foldl
        (fun s raw => let e := pyStrip raw; if e = "" then s else insert (pyLower e) s)
        st.seen_emails }

/-- Embeds `StateStore.load_from_output`: if the snapshot file exists (and
parses), the three sets are *assigned* from its lists (`self.seen_... =
set(state_data.get(...))`) and the method returns; otherwise state is
loaded from the output files. -/
def load_from_output (st : StateStore) (fs : StateFS) : StateStore :=
  match fs.state_file with
  | some snap =>
      { seen_companies := snap.companies.toFinset,
        seen_domains := snap.domains.toFinset,
        seen_emails := snap.emails.toFinset }
  | none => load_from_files st fs

/-- Embeds `StateStore.clear_state`: clear the three sets and unlink the
snapshot file (the output artifacts are not touched). -/
def clear_state (st : StateStore) (fs : StateFS) : StateStore × StateFS :=
  let _ := st
  ({ seen_companies := ∅, seen_domains := ∅, seen_emails := ∅ },
   { fs with state_file := none })

/-- Operations of the `StateStore` interface used by the pipeline,
excluding `clear_state` (claim C10 quantifies over sequences of these). -/
inductive StoreOp where
  | isSeenCompanyOp (c : Company)
  | isSeenDomainOp (d : String)
  | isSeenEmailOp (e : String)
  | addSeenCompanyOp (c : Company)
  | addSeenDomainOp (d : String)
  | addSeenEmailOp (e : String)
  | saveStateOp
  | loadFromOutputOp
deriving DecidableEq

/-- Step function: the effect of one `StateStore` operation on the store
and the filesystem.  Membership tests do not mutate. -/
def runOp : StateStore × StateFS → StoreOp → StateStore × StateFS
  | (st, fs), .isSeenCompanyOp _ => (st, fs)
  | (st, fs), .isSeenDomainOp _ => (st, fs)
  | (st, fs), .isSeenEmailOp _ => (st, fs)
  | (st, fs), .addSeenCompanyOp c => (add_seen_company st c, fs)
  | (st, fs), .addSeenDomainOp d => (add_seen_domain st d, fs)
  | (st, fs), .addSeenEmailOp e => (add_seen_email st e, fs)
  | (st, fs), .saveStateOp => (st, save_state_fs st fs)
  | (st, fs), .loadFromOutputOp => (load_from_output st fs, fs)

/-- Run a sequence of `StateStore` operations. -/
def runOps (s : StateStore × StateFS) (ops : List StoreOp) : StateStore × StateFS :=
  ops.foldl runOp s

/-- Discriminator for the load operation. -/
def StoreOp.isLoadOp : StoreOp → Bool
  | .loadFromOutputOp => true
  | _ => false

/-! ## LeadOrchestrator (`leadgen/orchestrator.py`)

External collaborators are embedded as functions; a raised exception is
an `Except.error` carrying the exception text.  `ProviderError` and
unexpected exceptions are treated alike by the search loop (both skip the
query), so a single error channel suffices. -/

/-- Provider collaborator: its `search(query, proxy)` contract. -/
def Provider := String → Except String (List Company)

/-- Result shapes a domain finder may return to `run_domain_discovery`:
a string, or the structured payload whose `["data"]["domain"]` /
`["data"]["emails"]` fields the orchestrator reads (`contacts` is what
`_parse_email_data` extracts). -/
inductive DomainFinderRes where
  | strRes (s : String)
  | dictRes (domain : String) (contacts : List Contact)
deriving DecidableEq, Repr

/-- Domain-finder collaborator: its `find(company, proxy)` contract. -/
def DomainFinder := Company → Except String DomainFinderRes

/-- Email-finder collaborator: its `find_email(domain, proxy)` contract. -/
def EmailFinder := String → Except String EmailResult

/-- Mutable orchestrator fields touched by the phases.  `self.domains` is
a Python `set`; it is embedded as a duplicate-free list in insertion
order (set iteration order is unspecified; insertion order is one
admissible enumeration). -/
structure Orchestrator where
  companies : List Company := []
  domains : List String := []
  email_results : List EmailResult := []
  state_store : Option StateStore := none

/-- Insertion into the `self.domains` set. -/
def addDomain (l : List String) (x : String) : List String :=
  if x ∈ l then l else l ++ [x]

/-- Accumulation loop of `run_provider_search`: every provider is run on
every query; a `ProviderError` or unexpected exception skips that query
and contributes nothing. -/
def gather_all_companies (providers : List Provider) (queries : List String) :
    List Company :=
  providers.foldr
    (fun p acc =>
      queries.foldr
        (fun q acc' =>
          (match p q with
           | .ok cs => cs
           | .error _ => []) ++ acc')
        [] ++ acc)
    []

/-- Deduplication loop of `run_provider_search` (the `if self.state_store:`
branch): keep a company iff its normalized key is not yet seen, marking
kept companies seen as the loop goes. -/
def dedup_filter : List Company → StateStore → List Company × StateStore
  | [], st => ([], st)
  | c :: rest, st =>
      if is_seen_company st c then dedup_filter rest st
      else
        let st' := add_seen_company st c
        let (ns, st'') := dedup_filter rest st'
        (c :: ns, st'')

/-- Embeds `LeadOrchestrator.run_provider_search`.  `old_company_names`
stands for `ConfigLoader()._load_companies("companies.txt")`, the
name-list the storeless fallback branch filters against.  With a store,
candidates are dedup-filtered and the store snapshot is saved; the phase
is skipped entirely when there are no providers or no queries. -/
def run_provider_search (providers : List Provider) (queries : List String)
    (old_company_names : List String) (o : Orchestrator) (fs : StateFS) :
    Orchestrator × StateFS :=
  if providers.isEmpty then (o, fs)
  else if queries.isEmpty then (o, fs)
  else
    let all_companies := gather_all_companies providers queries
    match o.state_store with
    | some st =>
        let (new_companies, st') := dedup_filter all_companies st
        ({ o with companies := new_companies, state_store := some st' },
         save_state_fs st' fs)
    | none =>
        ({ o with companies :=
            all_companies.filter (fun c => ! old_company_names.contains c.name) },
         fs)

/-- Embeds `DomainResolver._clean_and_extract_domain`: normalize
protocol-relative and bare-host inputs, reject relative paths, take the
lower-cased `netloc` (userinfo/port handling is irrelevant for the
claims' inputs), drop a leading `www.`, and map the empty result to
`None`. -/
def clean_and_extract_domain (url : String) : Option String :=
  let full : Option String :=
    if pyStartsWith url "//" then some ("https:" ++ url)
    else if pyStartsWith url "/" then none
    else if pyStartsWith url "http://" || pyStartsWith url "https://" then some url
    else some ("https://" ++ url)
  match full with
  | none => none
  | some u =>
      let after := if pyStartsWith u "https://" then pyDrop u 8 else pyDrop u 7
      let netloc :=
        String.mk (after.data.takeWhile (fun c => c ≠ '/' && c ≠ '?' && c ≠ '#'))
      let domain := pyLower netloc
      let domain := if pyStartsWith domain "www." then pyDrop domain 4 else domain
      if domain = "" then none else some domain

/-- State threaded through `run_domain_discovery`.  `resultVar` is the
Python local variable `result`: bound by the first structured payload
processed in this call, read again (stale or unbound) on the
already-seen payload path. -/
structure DomainPhaseState where
  domains : List String
  email_results : List EmailResult
  state_store : Option StateStore
  resultVar : Option EmailResult

/-- Outcome of one `domain_finder.find` attempt inside
`run_domain_discovery`'s inner loop: the updated phase state, the
possibly-updated company (`company.domain = domain`), and the
`found_result` flag.  Any exception is caught and reported as
`found_result = false` (try the next finder); the already-seen payload
path reaches `self.email_results.append(result)` with the Python local
`result` unbound when no earlier payload bound it, raising `NameError`
*after* `add_seen_domain` already ran. -/
def try_domain_finder (valid : String → Bool) (name : String) (finder : DomainFinder)
    (c : Company) (ps : DomainPhaseState) : DomainPhaseState × Company × Bool :=
  match finder c with
  | .error _ => (ps, c, false)
  | .ok (.strRes s) =>
      if s ≠ "" then
        -- `if res and isinstance(res, str):` — the bare-domain path
        match clean_and_extract_domain s with
        | some domain =>
            if valid domain then
              match ps.state_store with
              | some st =>
                  if is_seen_domain st domain then (ps, c, true)
                  else
                    ({ ps with domains := addDomain ps.domains domain,
                               state_store := some (add_seen_domain st domain) },
                     { c with domain := some domain }, true)
              | none =>
                  ({ ps with domains := addDomain ps.domains domain },
                   { c with domain := some domain }, true)
            else (ps, c, false)
        | none => (ps, c, false)
      else
        -- falsy `res`: the `else` branch evaluates `res["data"]["domain"]`,
        -- which raises and is caught by the surrounding `except`
        (ps, c, false)
  | .ok (.dictRes domain contacts) =>
      let result : EmailResult :=
        { domain := domain, emails := contacts, finder := name, success := true }
      match ps.state_store with
      | some st =>
          if is_seen_domain st domain then
            -- skip branch, then the unconditional `if self.state_store and domain:`
            if domain ≠ "" then
              let st' := add_seen_domain st domain
              match ps.resultVar with
              | none =>
                  -- `self.email_results.append(result)` raises NameError; caught
                  ({ ps with state_store := some st' }, c, false)
              | some stale =>
                  ({ ps with state_store := some st',
                             email_results := ps.email_results ++ [stale] },
                   c, true)
            else (ps, c, true)
          else
            let st' := contacts.foldl
              (fun acc ct => if ct.email ≠ "" then add_seen_email acc ct.email else acc)
              (add_seen_domain st domain)
            let ps' := { ps with domains := addDomain ps.domains domain,
                                 state_store := some st', resultVar := some result }
            if domain ≠ "" then
              ({ ps' with state_store := some (add_seen_domain st' domain),
                          email_results := ps'.email_results ++ [result] },
               c, true)
            else (ps', c, true)
      | none =>
          -- without a store both `if self.state_store ...:` guards fail:
          -- the domain is collected but the result is never appended
          ({ ps with domains := addDomain ps.domains domain, resultVar := some result },
           c, true)

/-- Inner loop of `run_domain_discovery`: try the configured finders in
order, stopping at the first `found_result`. -/
def run_finders_for_company (valid : String → Bool) :
    List (String × DomainFinder) → Company → DomainPhaseState →
    Company × DomainPhaseState
  | [], c, ps => (c, ps)
  | (name, f) :: rest, c, ps =>
      let (ps', c', found) := try_domain_finder valid name f c ps
      if found then (c', ps') else run_finders_for_company valid rest c' ps'

/-- Outer loop of `run_domain_discovery` over the companies. -/
def run_companies (valid : String → Bool) (finders : List (String × DomainFinder)) :
    List Company → DomainPhaseState → List Company × DomainPhaseState
  | [], ps => ([], ps)
  | c :: rest, ps =>
      let (c', ps') :=
        if finders.isEmpty then (c, ps)
        else run_finders_for_company valid finders c ps
      let (cs', ps'') := run_companies valid finders rest ps'
      (c' :: cs', ps'')

/-- Embeds `LeadOrchestrator.run_domain_discovery`, generic in the
validity predicate the resolver supplies (`run_domain_discovery` proper
instantiates it with `is_valid_business_domain` below). -/
def run_domain_discovery_gen (valid : String → Bool)
    (finders : List (String × DomainFinder)) (o : Orchestrator) : Orchestrator :=
  let ps0 : DomainPhaseState :=
    { domains := o.domains, email_results := o.email_results,
      state_store := o.state_store, resultVar := none }
  let (cs, ps) := run_companies valid finders o.companies ps0
  { companies := cs, domains := ps.domains,
    email_results := ps.email_results, state_store := ps.state_store }

/-- Embeds `LeadOrchestrator.run_domain_discovery` with the resolver the
orchestrator actually constructs. -/
def run_domain_discovery (finders : List (String × DomainFinder))
    (o : Orchestrator) : Orchestrator :=
  run_domain_discovery_gen is_valid_business_domain finders o

/-- Mark every contact email of a successful result seen
(`hasattr(email_obj, "email") and email_obj.email`). -/
def mark_result_emails (st : StateStore) (contacts : List Contact) : StateStore :=
  contacts.foldl
    (fun acc ct => if ct.email ≠ "" then add_seen_email acc ct.email else acc) st

/-- Body of the email-discovery loop for one `(finder, domain)` pair:
append the returned `EmailResult`, or on an exception append the failed
`EmailResult(domain, [], finder_name, success=False, error=str(e))`;
successful results with emails mark those emails seen. -/
def email_step (name : String) (f : EmailFinder) (o : Orchestrator)
    (d : String) : Orchestrator :=
  match f d with
  | .ok result =>
      let o' := { o with email_results := o.email_results ++ [result] }
      if result.success && ! result.emails.isEmpty then
        match o'.state_store with
        | some st => { o' with state_store := some (mark_result_emails st result.emails) }
        | none => o'
      else o'
  | .error e =>
      { o with email_results := o.email_results ++
          [{ domain := d, emails := [], finder := name, success := false,
             error := some e }] }

/-- Inner domain loop of `run_email_discovery` for one finder. -/
def email_domain_loop (name : String) (f : EmailFinder) :
    List String → Orchestrator → Orchestrator
  | [], o => o
  | d :: ds, o => email_domain_loop name f ds (email_step name f o d)

/-- Outer finder loop of `run_email_discovery`. -/
def email_finder_loop :
    List (String × EmailFinder) → List String → Orchestrator → Orchestrator
  | [], _, o => o
  | (name, f) :: rest, doms, o =>
      email_finder_loop rest doms (email_domain_loop name f doms o)

/-- Filtering step of `run_email_discovery`: with a store, keep only the
domains not already seen; without one, process the whole domain list. -/
def domains_to_process (o : Orchestrator) : List String :=
  match o.state_store with
  | some st => o.domains.filter (fun d => ! is_seen_domain st d)
  | none => o.domains

/-- Embeds `LeadOrchestrator.run_email_discovery`: return early when no
finders or no domains are configured, then run every finder over the
filtered domain list. -/
def run_email_discovery (finders : List (String × EmailFinder))
    (o : Orchestrator) : Orchestrator :=
  if finders.isEmpty then o
  else if o.domains.isEmpty then o
  else email_finder_loop finders (domains_to_process o) o

/-- Configuration and collaborators consumed by `run_full_pipeline`. -/
structure PipelineEnv where
  providers : List Provider
  queries : List String
  old_company_names : List String
  domain_finders : List (String × DomainFinder)
  email_finders : List (String × EmailFinder)
  run_email_finder_alone : Bool

/-- Phase markers used to record which phases a pipeline run executed. -/
inductive PhaseTag where
  | searchPhase
  | domainPhase
  | emailPhase
deriving DecidableEq, Repr

/-- Embeds `LeadOrchestrator.run_full_pipeline` (its non-exceptional
path), instrumented with the list of phases it invokes: email-finder-alone
mode runs only `run_email_discovery`; otherwise `run_provider_search`
then `run_domain_discovery` run, and `run_email_discovery` is invoked
exactly when `self.email_results` is empty afterwards. -/
def run_full_pipeline (env : PipelineEnv) (o : Orchestrator) (fs : StateFS) :
    Orchestrator × StateFS × List PhaseTag :=
  if env.run_email_finder_alone then
    (run_email_discovery env.email_finders o, fs, [.emailPhase])
  else
    let (o1, fs1) :=
      run_provider_search env.providers env.queries env.old_company_names o fs
    let o2 := run_domain_discovery env.domain_finders o1
    if o2.email_results.isEmpty then
      (run_email_discovery env.email_finders o2, fs1,
       [.searchPhase, .domainPhase, .emailPhase])
    else (o2, fs1, [.searchPhase, .domainPhase])

/-! ## ProxyManager (`leadgen/utils/proxy.py`)

The health probe `_test_proxy` makes a live HTTP request, so its outcome
is an oracle: a function of the probe's sequence number and the proxy
url.  The proxies file edited by `_disable_proxy` is part of the manager
state; note that `_disable_proxy` edits only that file, while rotation
reads the in-memory `self.proxies` list. -/

/-- Embeds `_normalize_proxy`'s url rewriting (`socks5://` → `socks5h://`);
the returned dict maps both `http` and `https` to this url. -/
def normalize_proxy_url (u : String) : String :=
  String.mk (replaceList "socks5://".data "socks5h://".data u.data)

/-- Pointwise update of the `use_counts` dict. -/
def update_count (f : String → Nat) (k : String) (v : Nat) : String → Nat :=
  fun x => if x = k then v else f x

/-- Embeds `ProxyManager._disable_proxy`: comment out every line of the
proxies *file* whose stripped text equals the url. -/
def disable_proxy_lines (lines : List String) (proxy_url : String) : List String :=
  lines.map (fun line =>
    if pyStrip line = proxy_url && ! pyStartsWith (pyStrip line) "#" then
      "# " ++ pyStrip line ++ "  # disabled due to failure"
    else line)

/-- Embeds the mutable state of `ProxyManager`. -/
structure ProxyManager where
  proxy_index : Nat := 0
  use_counts : String → Nat := fun _ => 0
  test_interval : Nat := 10
  proxies : List String
  proxies_file : List String := []
  tests_done : Nat := 0

/-- Embeds `ProxyManager._get_proxy` up to the final `_normalize_proxy`
call (applied by `get_proxy_normalized` below): select the proxy at
`proxy_index % len`, advance the index, bump the use counter; once the
counter reaches `test_interval`, health-check the proxy — on failure,
comment it out in the proxies file, filter `self.proxies` by lines
starting with `#` (a no-op, since `_disable_proxy` never edited that
list), and recurse; on success, reset the counter.  `fuel` bounds the
recursion (Python recurses unboundedly); `none` is fuel exhaustion,
`some (none, _)` is the empty-pool return. -/
def get_proxy (healthy : Nat → String → Bool) :
    Nat → ProxyManager → Option (Option String × ProxyManager)
  | 0, _ => none
  | fuel + 1, pm =>
      if pm.proxies.isEmpty then some (none, pm)
      else
        let proxy_url := pyStrip (pm.proxies.getD (pm.proxy_index % pm.proxies.length) "")
        let pm1 := { pm with proxy_index := pm.proxy_index + 1 }
        let cnt := pm1.use_counts proxy_url + 1
        let pm2 := { pm1 with use_counts := update_count pm1.use_counts proxy_url cnt }
        if cnt ≥ pm2.test_interval then
          let alive := healthy pm2.tests_done proxy_url
          let pm3 := { pm2 with tests_done := pm2.tests_done + 1 }
          if ! alive then
            let pm4 := { pm3 with
              proxies_file := disable_proxy_lines pm3.proxies_file proxy_url,
              proxies := pm3.proxies.filter (fun p => ! pyStartsWith (pyStrip p) "#") }
            get_proxy healthy fuel pm4
          else
            some (some proxy_url,
              { pm3 with use_counts := update_count pm3.use_counts proxy_url 0 })
        else some (some proxy_url, pm2)

/-- Embeds the full `_get_proxy` return value
(`return self._normalize_proxy(proxy_url)`). -/
def get_proxy_normalized (healthy : Nat → String → Bool) (fuel : Nat)
    (pm : ProxyManager) : Option (Option String × ProxyManager) :=
  (get_proxy healthy fuel pm).map (fun r => (r.1.map normalize_proxy_url, r.2))

/-- Run `n` successive `_get_proxy` calls, collecting the returned proxy
urls (stopping early on fuel exhaustion). -/
def get_proxy_trace (healthy : Nat → String → Bool) (fuel : Nat) :
    Nat → ProxyManager → List (Option String) × ProxyManager
  | 0, pm => ([], pm)
  | n + 1, pm =>
      match get_proxy healthy fuel pm with
      | none => ([], pm)
      | some (r, pm') =>
          let (rs, pm'') := get_proxy_trace healthy fuel n pm'
          (r :: rs, pm'')

/-! ## Concrete scenario inputs used by the claim theorems -/

/-- Fresh `StateStore` as built by the constructor: three empty sets. -/
def StateStore.init : StateStore := {}

/-- Closed form of one email-discovery step's appended record: the
finder's result, or the failed `EmailResult` built from the exception. -/
def email_results_of (name : String) (f : EmailFinder) (d : String) : EmailResult :=
  match f d with
  | .ok r => r
  | .error e =>
      { domain := d, emails := [], finder := name, success := false, error := some e }

/-- Scenario company for the DomainPhase / EmailPhase interaction claim. -/
def c2_company : Company := { id := "1", name := "Acme" }

/-- Scenario domain finder: resolves every company to the bare url string
`"https://acme.com"`. -/
def c2_domain_finder : DomainFinder := fun _ => .ok (.strRes "https://acme.com")

/-- Scenario email finder: always succeeds with one contact. -/
def c2_email_finder : EmailFinder := fun d =>
  .ok { domain := d,
        emails := [{ name := "Bob", company_name := "Acme",
                     email := "bob@acme.com", position := "CEO" }],
        finder := "hunter", success := true }

/-- Scenario orchestrator state after SearchPhase: one surviving company
and a fresh deduplication store. -/
def c2_orchestrator : Orchestrator :=
  { companies := [c2_company], state_store := some StateStore.init }

/-- Scenario proxy pool `[P1, P2, P3]` with `test_interval = 2`. -/
def c3_pm : ProxyManager :=
  { proxies := ["P1", "P2", "P3"], proxies_file := ["P1", "P2", "P3"],
    test_interval := 2 }

/-- Scenario health oracle: the first probe of `P1` fails (the proxy is
down at that moment); every other probe succeeds. -/
def c3_healthy : Nat → String → Bool := fun t u => ! (u == "P1" && t == 0)

/-- Scenario email finder that always raises. -/
def c9_finder : EmailFinder := fun _ => .error "kaboom"

/-- Scenario orchestrator state with one discovered domain and no store. -/
def c9_orchestrator : Orchestrator := { domains := ["a.com"] }

/-- Scenario store holding one seen domain. -/
def c10_state : StateStore := { seen_domains := {"a.com"} }

/-- Scenario filesystem holding an empty (older) snapshot. -/
def c10_fs : StateFS := { state_file := some ⟨[], [], []⟩ }

/-- Scenario filesystem for the fresh-run claim: a snapshot plus a
domains output artifact left over from a prior run. -/
def c7_fs : StateFS := { state_file := some ⟨[], [], []⟩, domains_out := ["a.com"] }

/-! ## Helper lemmas -/

/-- Writing a snapshot and loading it back restores exactly the store
that was saved, whatever store the loader starts from. -/
theorem load_save_roundtrip (fresh st : StateStore) (fs : StateFS) :
    load_from_output fresh (save_state_fs st fs) = st := by
  cases st with
  | mk a b c =>
      simp [load_from_output, save_state_fs, save_state, Finset.sort_toFinset]

/-- The dedup loop of SearchPhase never removes seen-company keys. -/
theorem dedup_filter_seen_mono (l : List Company) (st : StateStore) :
    st.seen_companies ⊆ (dedup_filter l st).2.seen_companies := by
  induction l generalizing st with
  | nil => exact Finset.Subset.refl _
  | cons c rest ih =>
      by_cases h : is_seen_company st c = true
      · simpa [dedup_filter, h] using ih st
      · have h2 := ih (add_seen_company st c)
        simp only [dedup_filter, h]
        refine Finset.Subset.trans ?_ (by simpa using h2)
        simp [add_seen_company, Finset.subset_insert]

/-- After the dedup loop, every processed company's key is seen. -/
theorem dedup_filter_marks (l : List Company) (st : StateStore) :
    ∀ c ∈ l, normalize_company_key c ∈ (dedup_filter l st).2.seen_companies := by
  induction l generalizing st with
  | nil => intro c hc; cases hc
  | cons a rest ih =>
      intro c hc
      by_cases h : is_seen_company st a = true
      · have hres : (dedup_filter (a :: rest) st).2 = (dedup_filter rest st).2 := by
          simp [dedup_filter, h]
        rw [hres]
        rcases List.mem_cons.mp hc with h1 | hmem
        · subst h1
          exact dedup_filter_seen_mono rest st
            (by simpa [is_seen_company, decide_eq_true_eq] using h)
        · exact ih st c hmem
      · have hres : (dedup_filter (a :: rest) st).2 =
            (dedup_filter rest (add_seen_company st a)).2 := by
          simp [dedup_filter, h]
        rw [hres]
        rcases List.mem_cons.mp hc with h1 | hmem
        · subst h1
          exact dedup_filter_seen_mono rest (add_seen_company st c)
            (by simp [add_seen_company])
        · exact ih (add_seen_company st a) c hmem

/-- When every candidate's key is already seen, the dedup loop keeps
nothing and leaves the store unchanged. -/
theorem dedup_filter_all_seen (l : List Company) (st : StateStore)
    (h : ∀ c ∈ l, normalize_company_key c ∈ st.seen_companies) :
    dedup_filter l st = ([], st) := by
  induction l with
  | nil => rfl
  | cons a rest ih =>
      have ha : is_seen_company st a = true := by
        simp only [is_seen_company, decide_eq_true_eq]
        exact h a (List.mem_cons_self a rest)
      simp only [dedup_filter, ha, if_true]
      exact ih (fun c hc => h c (List.mem_cons_of_mem _ hc))

/-- Closed behaviour of `run_provider_search` with a store configured
and a nonempty provider / query configuration. -/
theorem run_provider_search_store (providers : List Provider)
    (queries olds : List String) (o : Orchestrator) (st : StateStore)
    (fs : StateFS) (ho : o.state_store = some st)
    (hp : providers.isEmpty = false) (hq : queries.isEmpty = false) :
    run_provider_search providers queries olds o fs =
      ({ o with
          companies := (dedup_filter (gather_all_companies providers queries) st).1,
          state_store := some (dedup_filter (gather_all_companies providers queries) st).2 },
       save_state_fs (dedup_filter (gather_all_companies providers queries) st).2 fs) := by
  simp [run_provider_search, hp, hq, ho]

/-- One email-discovery step appends exactly one record. -/
theorem email_step_results (name : String) (f : EmailFinder) (o : Orchestrator)
    (d : String) :
    (email_step name f o d).email_results =
      o.email_results ++ [email_results_of name f d] := by
  cases hf : f d with
  | ok r =>
      by_cases hs : (r.success && ! r.emails.isEmpty) = true
      · cases hss : o.state_store <;>
          simp [email_step, email_results_of, hf, hs, hss]
      · simp [email_step, email_results_of, hf, hs]
  | error e => simp [email_step, email_results_of, hf]

/-- Closed form of the inner domain loop of email discovery: one record
per domain, exceptions included. -/
theorem email_domain_loop_results (name : String) (f : EmailFinder)
    (ds : List String) (o : Orchestrator) :
    (email_domain_loop name f ds o).email_results =
      o.email_results ++ ds.map (email_results_of name f) := by
  induction ds generalizing o with
  | nil => simp [email_domain_loop]
  | cons d rest ih =>
      simp [email_domain_loop, ih (email_step name f o d), email_step_results,
        List.append_assoc]

/-- Closed form of the outer finder loop of email discovery. -/
theorem email_finder_loop_results (finders : List (String × EmailFinder))
    (doms : List String) (o : Orchestrator) :
    (email_finder_loop finders doms o).email_results =
      o.email_results ++
        (finders.map (fun nf => doms.map (email_results_of nf.1 nf.2))).flatten := by
  induction finders generalizing o with
  | nil => simp [email_finder_loop]
  | cons nf rest ih =>
      simp [email_finder_loop, ih (email_domain_loop nf.1 nf.2 doms o),
        email_domain_loop_results, List.append_assoc]

/-- Every store operation other than a load only grows the three sets. -/
theorem runOp_mono (s : StateStore × StateFS) (op : StoreOp)
    (h : op.isLoadOp = false) :
    s.1.seen_companies ⊆ (runOp s op).1.seen_companies ∧
    s.1.seen_domains ⊆ (runOp s op).1.seen_domains ∧
    s.1.seen_emails ⊆ (runOp s op).1.seen_emails := by
  obtain ⟨st, fs⟩ := s
  cases op with
  | isSeenCompanyOp c => simp [runOp]
  | isSeenDomainOp d => simp [runOp]
  | isSeenEmailOp e => simp [runOp]
  | addSeenCompanyOp c =>
      exact ⟨by simp [runOp, add_seen_company, Finset.subset_insert],
             by simp [runOp, add_seen_company],
             by simp [runOp, add_seen_company]⟩
  | addSeenDomainOp d =>
      exact ⟨by simp [runOp, add_seen_domain],
             by simp [runOp, add_seen_domain, Finset.subset_insert],
             by simp [runOp, add_seen_domain]⟩
  | addSeenEmailOp e =>
      exact ⟨by simp [runOp, add_seen_email],
             by simp [runOp, add_seen_email],
             by simp [runOp, add_seen_email, Finset.subset_insert]⟩
  | saveStateOp => simp [runOp]
  | loadFromOutputOp => cases h

/-- Pipeline environment for the phase-policy witness: email-finder-alone
mode, no collaborators. -/
def c8_env : PipelineEnv :=
  { providers := [], queries := [], old_company_names := [],
    domain_finders := [], email_finders := [],
    run_email_finder_alone := true }

/-- Pipeline environment for the phase-policy witness: full-pipeline mode,
no collaborators. -/
def c8_env' : PipelineEnv := { c8_env with run_email_finder_alone := false }

/-! ## Claim theorems -/

/-- C1: the spec's truth table for `isValidBusinessDomain` fails on the
code.  `_is_valid_business_domain` opens with
`if isinstance(domain, str): return False`, so it returns `False` for
*every* string — in particular for `"example.com"`, where the spec
requires `True`.  The rest of the function (embedded as
`is_valid_business_domain_body`) does satisfy the spec's truth table,
which shows the opening guard is an inverted `isinstance` test. -/
theorem C1_validator_rejects_every_string :
    is_valid_business_domain "example.com" = false ∧
    (∀ d : String, is_valid_business_domain d = false) ∧
    is_valid_business_domain_body "example.com" = true ∧
    is_valid_business_domain_body "m.facebook.com" = false ∧
    is_valid_business_domain_body "gmail.com" = false ∧
    is_valid_business_domain_body "" = false := by
  refine ⟨rfl, fun d => rfl, ?_, ?_, ?_, ?_⟩ <;> decide

/-- C2: a bare-domain-string resolution is never followed by an
EmailPhase finder invocation.  With the code as written the bare path
resolves nothing at all (every candidate fails
`_is_valid_business_domain`), so DomainPhase discovers no domain and
EmailPhase returns early; and even with the validator's inverted guard
fixed (`is_valid_business_domain_body`), DomainPhase marks the resolved
domain seen, so EmailPhase's dedup filter drops it and no email finder
runs on it.  Either way the claimed fallback invocation never happens. -/
theorem C2_email_phase_never_runs_on_bare_path_domains :
    (run_domain_discovery [("hunter", c2_domain_finder)] c2_orchestrator).domains = [] ∧
    (run_domain_discovery [("hunter", c2_domain_finder)] c2_orchestrator).email_results = [] ∧
    (run_email_discovery [("hunter", c2_email_finder)]
        (run_domain_discovery [("hunter", c2_domain_finder)] c2_orchestrator)).email_results
      = [] ∧
    (run_domain_discovery_gen is_valid_business_domain_body
        [("hunter", c2_domain_finder)] c2_orchestrator).domains = ["acme.com"] ∧
    (run_domain_discovery_gen is_valid_business_domain_body
        [("hunter", c2_domain_finder)] c2_orchestrator).email_results = [] ∧
    domains_to_process (run_domain_discovery_gen is_valid_business_domain_body
        [("hunter", c2_domain_finder)] c2_orchestrator) = [] ∧
    (run_email_discovery [("hunter", c2_email_finder)]
        (run_domain_discovery_gen is_valid_business_domain_body
          [("hunter", c2_domain_finder)] c2_orchestrator)).email_results = [] := by
  decide

/-- C3: a proxy whose health check failed is *not* excluded from
subsequent rotation.  With pool `[P1, P2, P3]` and `test_interval = 2`,
`P1`'s second use triggers a health check (the manager's second probe
overall has happened by then); the check fails, `_disable_proxy` comments
`P1` out in the proxies *file*, but the in-memory `self.proxies` list is
unchanged (the removal filter matches lines starting with `#`, which
`_disable_proxy` never put there), so once a later probe of `P1`
succeeds, `_get_proxy` returns `P1` again — the sixth call does. -/
theorem C3_disabled_proxy_returns_to_rotation :
    (get_proxy_trace c3_healthy 10 6 c3_pm).1 =
      [some "P1", some "P2", some "P3", some "P2", some "P3", some "P1"] ∧
    (get_proxy_trace c3_healthy 10 4 c3_pm).2.tests_done = 2 ∧
    (get_proxy_trace c3_healthy 10 4 c3_pm).2.proxies = ["P1", "P2", "P3"] ∧
    (get_proxy_trace c3_healthy 10 4 c3_pm).2.proxies_file =
      ["# P1  # disabled due to failure", "P2", "P3"] := by
  decide

/-- C4 counterexample: domain keys are *not* case-insensitive — after
`add_seen_domain("Example.COM")`, `is_seen_domain("example.com")` is
false, because both operations only strip whitespace and never fold
case. -/
theorem C4_domain_case_counterexample :
    is_seen_domain (add_seen_domain StateStore.init "Example.COM") "example.com" = false := by
  decide

/-- C4 (amended): membership and insertion are idempotent and
key-normalized, but the normalization differs by kind: emails are
case-folded and stripped, while domains are only stripped (so only
whitespace variants of a domain, not case variants, are recognized). -/
theorem C4_store_normalization_amended :
    ∀ (st : StateStore) (d d' e e' : String) (c : Company),
      (pyStrip d' = pyStrip d → is_seen_domain (add_seen_domain st d) d' = true) ∧
      (pyStrip (pyLower e') = pyStrip (pyLower e) →
        is_seen_email (add_seen_email st e) e' = true) ∧
      add_seen_domain (add_seen_domain st d) d = add_seen_domain st d ∧
      add_seen_email (add_seen_email st e) e = add_seen_email st e ∧
      add_seen_company (add_seen_company st c) c = add_seen_company st c := by
  intro st d d' e e' c
  refine ⟨?_, ?_, ?_, ?_, ?_⟩
  · intro h; simp [is_seen_domain, add_seen_domain, h]
  · intro h; simp [is_seen_email, add_seen_email, h]
  · simp [add_seen_domain, Finset.insert_idem]
  · simp [add_seen_email, Finset.insert_idem]
  · simp [add_seen_company, Finset.insert_idem]

/-- C4 witness: the amended statement at concrete inputs — a whitespace
variant of a domain and a case-and-whitespace variant of an email are
both recognized. -/
theorem C4_store_normalization_witness :
    is_seen_domain (add_seen_domain StateStore.init " example.com ") "example.com" = true ∧
    is_seen_email (add_seen_email StateStore.init " Bob@Acme.com ") "bob@acme.com" = true := by
  have h := C4_store_normalization_amended StateStore.init " example.com " "example.com"
    " Bob@Acme.com " "bob@acme.com" ⟨"1", "X", none, none, none, none⟩
  exact ⟨h.1 (by decide), h.2.1 (by decide)⟩

/-- C5: SearchPhase is idempotent across runs.  Run the phase on any
provider outputs with a store, persist the snapshot (which
`run_provider_search` does at the end of the phase), load the snapshot
into a fresh store, and run the phase again on the same provider
outputs: the second run keeps zero companies. -/
theorem C5_search_phase_idempotent :
    ∀ (providers : List Provider) (queries olds : List String)
      (st0 : StateStore) (fs : StateFS),
      (run_provider_search providers queries olds
          { state_store := some (load_from_output StateStore.init
              (run_provider_search providers queries olds
                { state_store := some st0 } fs).2) }
          (run_provider_search providers queries olds
            { state_store := some st0 } fs).2).1.companies = [] := by
  intro providers queries olds st0 fs
  by_cases hp : providers.isEmpty
  · simp [run_provider_search, hp]
  · by_cases hq : queries.isEmpty
    · simp [run_provider_search, hp, hq]
    · have hp' : providers.isEmpty = false := by simpa using hp
      have hq' : queries.isEmpty = false := by simpa using hq
      have h1 := run_provider_search_store providers queries olds
        { state_store := some st0 } st0 fs rfl hp' hq'
      rw [h1]
      rw [load_save_roundtrip]
      have h2 := run_provider_search_store providers queries olds
        { state_store := some (dedup_filter (gather_all_companies providers queries) st0).2 }
        (dedup_filter (gather_all_companies providers queries) st0).2
        (save_state_fs (dedup_filter (gather_all_companies providers queries) st0).2 fs)
        rfl hp' hq'
      rw [h2]
      have h3 := dedup_filter_all_seen (gather_all_companies providers queries)
        (dedup_filter (gather_all_companies providers queries) st0).2
        (fun c hc => dedup_filter_marks (gather_all_companies providers queries) st0 c hc)
      simp [h3]

/-- C6: snapshot round-trip — saving a store's snapshot and loading it
into any store (in particular a fresh one) reproduces exactly the three
seen-sets that were saved. -/
theorem C6_snapshot_roundtrip (st fresh : StateStore) (fs : StateFS) :
    load_from_output fresh (save_state_fs st fs) = st :=
  load_save_roundtrip fresh st fs

/-- C7 counterexample: after `clear_state`, reloading does *not*
generally yield empty seen-sets.  `clear_state` deletes only the
snapshot file, so `load_from_output` falls back to scanning the output
artifacts; with a leftover domains artifact containing `"a.com"`, the
reloaded store's domain set is `{"a.com"}`, not empty. -/
theorem C7_clear_reload_counterexample :
    (clear_state StateStore.init c7_fs).2.state_file = none ∧
    (load_from_output StateStore.init (clear_state StateStore.init c7_fs).2).seen_domains
      = {"a.com"} ∧
    (load_from_output StateStore.init (clear_state StateStore.init c7_fs).2).seen_domains
      ≠ (∅ : Finset String) := by
  decide

/-- C7 (amended): `clear_state` empties all three seen-sets and deletes
the snapshot file; a subsequent reload sees the missing snapshot file,
and yields empty seen-sets provided the output artifacts are also
absent/empty (otherwise the sets are rebuilt from those artifacts). -/
theorem C7_clear_fresh_amended :
    ∀ (st : StateStore) (fs : StateFS),
      (clear_state st fs).1 = StateStore.init ∧
      (clear_state st fs).2.state_file = none ∧
      (fs.companies_out = [] → fs.domains_out = [] → fs.emails_out = [] →
        load_from_output StateStore.init (clear_state st fs).2 = StateStore.init) := by
  intro st fs
  refine ⟨rfl, rfl, ?_⟩
  intro h1 h2 h3
  simp [clear_state, load_from_output, load_from_files, h1, h2, h3, StateStore.init]

/-- C7 witness: the amended statement at a concrete input with no output
artifacts — clear then reload yields the fresh empty store. -/
theorem C7_clear_fresh_witness :
    load_from_output StateStore.init (clear_state StateStore.init { }).2 = StateStore.init :=
  (C7_clear_fresh_amended StateStore.init { }).2.2 rfl rfl rfl

/-- C8: full-pipeline phase policy.  In email-finder-alone mode only
EmailPhase runs; otherwise SearchPhase and DomainPhase run (SearchPhase
leaves `email_results` untouched) and EmailPhase runs afterwards exactly
when `email_results` is still empty after DomainPhase — i.e., iff
DomainPhase produced zero email results when the run started with none. -/
theorem C8_full_pipeline_phase_policy :
    ∀ (env : PipelineEnv) (o : Orchestrator) (fs : StateFS),
      (env.run_email_finder_alone = true →
        (run_full_pipeline env o fs).2.2 = [PhaseTag.emailPhase]) ∧
      (run_provider_search env.providers env.queries env.old_company_names o fs).1.email_results
        = o.email_results ∧
      (env.run_email_finder_alone = false →
        ((run_full_pipeline env o fs).2.2 =
            [PhaseTag.searchPhase, PhaseTag.domainPhase, PhaseTag.emailPhase] ↔
          (run_domain_discovery env.domain_finders
              (run_provider_search env.providers env.queries env.old_company_names
                o fs).1).email_results = []) ∧
        ((run_full_pipeline env o fs).2.2 =
            [PhaseTag.searchPhase, PhaseTag.domainPhase] ↔
          ¬ (run_domain_discovery env.domain_finders
              (run_provider_search env.providers env.queries env.old_company_names
                o fs).1).email_results = [])) := by
  intro env o fs
  refine ⟨?_, ?_, ?_⟩
  · intro ha; simp [run_full_pipeline, ha]
  · by_cases hp : env.providers.isEmpty
    · simp [run_provider_search, hp]
    · by_cases hq : env.queries.isEmpty
      · simp [run_provider_search, hp, hq]
      · cases hss : o.state_store <;> simp [run_provider_search, hp, hq, hss]
  · intro ha
    by_cases he : (run_domain_discovery env.domain_finders
        (run_provider_search env.providers env.queries env.old_company_names
          o fs).1).email_results = []
    · constructor
      · simp [run_full_pipeline, ha, he]
      · simp [run_full_pipeline, ha, he]
    · constructor
      · simp [run_full_pipeline, ha, he]
      · simp [run_full_pipeline, ha, he]

/-- C8 witness: the phase policy at concrete inputs — alone mode runs
only EmailPhase; full mode with no domain results runs all three phases. -/
theorem C8_full_pipeline_witness :
    (run_full_pipeline c8_env ({ } : Orchestrator) ({ } : StateFS)).2.2 =
      [PhaseTag.emailPhase] ∧
    (run_full_pipeline c8_env' ({ } : Orchestrator) ({ } : StateFS)).2.2 =
      [PhaseTag.searchPhase, PhaseTag.domainPhase, PhaseTag.emailPhase] := by
  constructor
  · exact (C8_full_pipeline_phase_policy c8_env { } { }).1 rfl
  · exact ((C8_full_pipeline_phase_policy c8_env' { } { }).2.2 rfl).1.mpr (by decide)

/-- C9: per-item failure isolation in EmailPhase.  The result list after
the phase is the old list plus exactly one record per
(finder, processed domain) pair: the finder's result where the call
returns, and the failed `EmailResult` (success false, error text, no
contacts) where it raises — no exception aborts the batch. -/
theorem C9_email_phase_failure_isolation :
    ∀ (finders : List (String × EmailFinder)) (o : Orchestrator),
      finders ≠ [] → o.domains ≠ [] →
      (run_email_discovery finders o).email_results =
        o.email_results ++
          (finders.map (fun nf =>
            (domains_to_process o).map (email_results_of nf.1 nf.2))).flatten := by
  intro finders o hf hd
  have hf' : finders.isEmpty = false := by simpa [List.isEmpty_iff] using hf
  have hd' : o.domains.isEmpty = false := by simpa [List.isEmpty_iff] using hd
  simp [run_email_discovery, hf', hd', email_finder_loop_results]

/-- C9 witness: the isolation theorem at a concrete input whose finder
always raises — the batch completes and records the failed result. -/
theorem C9_email_phase_witness :
    (run_email_discovery [("boom", c9_finder)] c9_orchestrator).email_results =
      [{ domain := "a.com", emails := [], finder := "boom", success := false,
         error := some "kaboom" }] := by
  rw [C9_email_phase_failure_isolation [("boom", c9_finder)] c9_orchestrator
    (List.cons_ne_nil _ _) (by decide)]
  decide

/-- C10 counterexample: `load_from_output` is among the claim's allowed
operations yet can *remove* keys — loading an (older, empty) snapshot
replaces the in-memory sets, dropping `"a.com"` from the domain set. -/
theorem C10_load_removes_keys_counterexample :
    "a.com" ∈ c10_state.seen_domains ∧
    "a.com" ∉ (runOps (c10_state, c10_fs) [StoreOp.loadFromOutputOp]).1.seen_domains := by
  decide

/-- C10 (amended): under every sequence of store operations that contains
no snapshot load (membership tests, inserts, saves), the three seen-sets
only grow; a `load_from_output` with an existing snapshot, by contrast,
replaces the sets with the snapshot's contents. -/
theorem C10_seen_sets_monotone_amended :
    ∀ (ops : List StoreOp) (s : StateStore × StateFS),
      (∀ op ∈ ops, op.isLoadOp = false) →
      s.1.seen_companies ⊆ (runOps s ops).1.seen_companies ∧
      s.1.seen_domains ⊆ (runOps s ops).1.seen_domains ∧
      s.1.seen_emails ⊆ (runOps s ops).1.seen_emails := by
  intro ops
  induction ops with
  | nil =>
      intro s _
      exact ⟨Finset.Subset.refl _, Finset.Subset.refl _, Finset.Subset.refl _⟩
  | cons op rest ih =>
      intro s h
      have h1 := runOp_mono s op (h op (List.mem_cons_self op rest))
      have h2 := ih (runOp s op) (fun op' hop' => h op' (List.mem_cons_of_mem _ hop'))
      have e : runOps s (op :: rest) = runOps (runOp s op) rest := rfl
      rw [e]
      exact ⟨h1.1.trans h2.1, h1.2.1.trans h2.2.1, h1.2.2.trans h2.2.2⟩

/-- C10 witness: monotonicity over a concrete load-free operation
sequence. -/
theorem C10_monotone_witness :
    (c10_state, ({ } : StateFS)).1.seen_domains ⊆
      (runOps (c10_state, { })
        [StoreOp.addSeenDomainOp "b.com", StoreOp.saveStateOp]).1.seen_domains :=
  (C10_seen_sets_monotone_amended
    [StoreOp.addSeenDomainOp "b.com", StoreOp.saveStateOp]
    (c10_state, { }) (by decide)).2.1

end LeadGen
